import Mathlib

/-!
Verification of the core of `upslog.py` (GlennLasher/upslog2): a poller that
parses `apcaccess` status text and persists observations and power-transfer
events into a PostgreSQL store.

Shallow embedding conventions:
* Python `str` values are modelled as `List Char` (`Str` below); `String`
  literals are converted with `.data`.
* The PostgreSQL store reachable through psycopg2 is modelled as an explicit
  `DBState` value threaded through the database methods.  SQL statements are
  modelled by their relational semantics on that state; sequences
  (`status_v2_seq`, `reason_v2_seq`) are modelled by counters.
* Python exceptions are modelled with `Except`/explicit error results
  (`PyErr` below).  One driver-level behaviour is part of the model because
  the source trips it: psycopg2 merges the parameter sequence given to
  `cursor.execute` into the query with Python %-formatting, and raises
  `TypeError: not all arguments converted during string formatting` when
  parameters are left over after all `%s` placeholders are consumed (the
  well-known error produced, e.g., when executing a query with no `%s`
  placeholder but a non-empty parameter tuple).  `update_transfer`'s SELECT
  (`update_transfer_select`, upslog.py line 142) contains no placeholder yet
  is executed with the one-element tuple `(timestamp,)` (line 246).
* Python floats are modelled as `ℚ`.  All numeric computations appearing in
  the concrete scenarios below (`10 * 500 / 100`, `float("60")`) are exact in
  IEEE double precision, so the rational model agrees with Python on them.
-/

set_option maxRecDepth 4000

/-- Python `str` modelled as a list of characters. -/
abbrev Str := List Char

/-- Python `str.split('\n')`: cut at every newline, keeping empty pieces
(`"".split('\n') == [""]`). -/
def splitNl : Str → List Str
  | [] => [[]]
  | c :: cs =>
    match splitNl cs with
    | [] => [[]]
    | p :: ps => if c = '\n' then [] :: p :: ps else (c :: p) :: ps

/-- Whitespace characters removed by Python `str.strip()` (the ASCII ones;
no other whitespace occurs in apcaccess output). -/
def isPySpace (c : Char) : Bool :=
  c = ' ' || c = '\t' || c = '\n' || c = '\r' || c = '\x0b' || c = '\x0c'

/-- Python `str.strip()`: drop surrounding whitespace. -/
def strip (s : Str) : Str :=
  ((s.dropWhile isPySpace).reverse.dropWhile isPySpace).reverse

/-- The keys of `UPS.re_set` (upslog.py lines 43-55), in the dict's insertion
order. -/
inductive Key where
  | date
  | status
  | line_voltage
  | load_percent
  | batt_percent
  | batt_time
  | batt_volts
  | xfer_reason
  | on_batt
  | off_batt
  | load_max_watts
deriving DecidableEq

/-- The regexes of `UPS.re_set`, all of shape `^LABEL \: (.*)UNIT$`, modelled
as the literal text before the capture group and the literal text after it.
The label part reproduces the fixed-width padding of the source exactly
(e.g. `'^DATE     \: (.*)$'` has five spaces after `DATE`). -/
def pat : Key → Str × Str
  | .date => ("DATE     : ".data, "".data)
  | .status => ("STATUS   : ".data, "".data)
  | .line_voltage => ("LINEV    : ".data, " Volts".data)
  | .load_percent => ("LOADPCT  : ".data, " Percent".data)
  | .batt_percent => ("BCHARGE  : ".data, " Percent".data)
  | .batt_time => ("TIMELEFT : ".data, " Minutes".data)
  | .batt_volts => ("BATTV    : ".data, " Volts".data)
  | .xfer_reason => ("LASTXFER : ".data, "".data)
  | .on_batt => ("XONBATT  : ".data, "".data)
  | .off_batt => ("XOFFBATT : ".data, "".data)
  | .load_max_watts => ("NOMPOWER : ".data, " Watts".data)

/-- Match one line against a pattern `^P(.*)S$` (the line contains no newline
after splitting, and `(.*)` is greedy, so the captured group is everything
between the literal head `P` and the final occurrence of the literal tail
`S`).  Returns `group(1)` of the Python match, or `none`. -/
def matchPat (p : Str × Str) (line : Str) : Option Str :=
  let rest := line.drop p.1.length
  if line.take p.1.length == p.1 && p.2.length ≤ rest.length
      && rest.drop (rest.length - p.2.length) == p.2 then
    some (rest.take (rest.length - p.2.length))
  else none

/-- The iteration order of `for key in self.re_set` (Python dict insertion
order). -/
def keyList : List Key :=
  [.date, .status, .line_voltage, .load_percent, .batt_percent, .batt_time,
   .batt_volts, .xfer_reason, .on_batt, .off_batt, .load_max_watts]

/-- `parsed[key] = value`: Python dict entry assignment. -/
def update (d : Key → Option Str) (k : Key) (v : Str) : Key → Option Str :=
  fun k' => if k' = k then some v else d k'

/-- The inner loop of `UPS.parse`: try every regex against one line, storing
`match.group(1).strip()` under the regex's key on a match. -/
def processLine (d : Key → Option Str) (line : Str) : Key → Option Str :=
  keyList.foldl
    (fun d' k =>
      match matchPat (pat k) line with
      | some v => update d' k (strip v)
      | none => d') d

/-- `UPS.parse` restricted to an already-split list of lines. -/
def parseLines (lines : List Str) : Key → Option Str :=
  lines.foldl processLine (fun _ => none)

/-- `UPS.parse` (upslog.py lines 72-84): split the response on newlines, try
every regex against every line, and collect `group(1).strip()` per key into
a dict. -/
def parse (s : Str) : Key → Option Str :=
  parseLines (splitNl s)

theorem splitNl_example :
    splitNl "ab\ncd".data = ["ab".data, "cd".data] := by decide

theorem matchPat_example :
    matchPat (pat .status) "STATUS   : ONLINE".data = some "ONLINE".data := by
  decide

/-- Python exceptions that the modelled code can raise. -/
inductive PyErr where
  /-- `KeyError` from a `status[...]` dict lookup in `main`; carries the
  missing key. -/
  | keyError (k : Key)
  /-- `ValueError` from `float()` applied to a non-numeric string. -/
  | valueError
  /-- psycopg2's error when `cursor.execute` is given a parameter sequence
  whose length differs from the number of `%s` placeholders in the query
  (`TypeError: not all arguments converted during string formatting`). -/
  | typeErrorNotAllArgumentsConverted
  /-- `UnboundLocalError`: a local variable referenced before assignment. -/
  | unboundLocalError
deriving DecidableEq

/-- All characters are decimal digits. -/
def allDigits (cs : Str) : Bool :=
  cs.all (fun c => '0' ≤ c && c ≤ '9')

/-- Value of a digit string, most significant digit first. -/
def digitsToNat (cs : Str) : Nat :=
  cs.foldl (fun a c => a * 10 + (c.toNat - 48)) 0

/-- Split at the first `'.'`, if any. -/
def splitAtDot : Str → Str × Option Str
  | [] => ([], none)
  | c :: cs =>
    if c = '.' then ([], some cs)
    else
      let p := splitAtDot cs
      (c :: p.1, p.2)

/-- Python `float()` on the unsigned decimal numerals apcaccess emits
(`"10"`, `"230.0"`, `"60"`, ...): digits with an optional single decimal
point, at least one digit in total.  Other inputs (signs, exponents, words)
are treated as a `ValueError`; the claims below only evaluate `float()` on
numerals of this shape, where IEEE parsing is modelled exactly by `ℚ`. -/
def pyFloat? (cs : Str) : Option ℚ :=
  match splitAtDot cs with
  | (intPart, none) =>
    if !intPart.isEmpty && allDigits intPart then some (digitsToNat intPart : ℚ)
    else none
  | (intPart, some fracPart) =>
    if (!intPart.isEmpty || !fracPart.isEmpty) && allDigits intPart
        && allDigits fracPart then
      some ((digitsToNat intPart : ℚ)
        + (digitsToNat fracPart : ℚ) / ((10 : ℚ) ^ fracPart.length))
    else none

theorem pyFloat_example : pyFloat? "60".data = some 60 := by rfl

/-- The literal `'ONLINE'` compared against in `main`
(`status['status']!='ONLINE'`). -/
def onlineStr : Str := "ONLINE".data

/-- The typed reading assembled by `main`'s keyword arguments: the spec's
"Field Normalizer" output.  String-typed fields are passed through to the
store as the parsed strings (only `load` and `timeleft` go through
`float()` in the source). -/
structure Reading where
  timestamp : Str
  status : Str
  linevoltage : Str
  battvoltage : Str
  load : ℚ
  batterysoc : Str
  timeleft : ℚ
  onbatt : Bool
  xfer_reason : Str
deriving DecidableEq

/-- The field accesses `main` performs on the parsed dict, in Python's
left-to-right evaluation order over the two call sites
(`insert_observation(timestamp=status['date'], status=status['status'],
linevoltage=..., battvoltage=..., load=float(...)*float(...)/100.0,
batterysoc=..., timeleft=float(...), onbatt=...)` then
`update_transfer(..., reason=status['xfer_reason'])`): a missing key raises
`KeyError` naming it, a non-numeric argument of `float()` raises
`ValueError`.  The second lookup of `status['status']` (for `onbatt`) always
succeeds once the first did and is not repeated here. -/
def normalizeFields (text : Str) : Except PyErr Reading :=
  let d := parse text
  match d Key.date with
  | none => .error (.keyError .date)
  | some ts =>
  match d Key.status with
  | none => .error (.keyError .status)
  | some stat =>
  match d Key.line_voltage with
  | none => .error (.keyError .line_voltage)
  | some lv =>
  match d Key.batt_volts with
  | none => .error (.keyError .batt_volts)
  | some bv =>
  match d Key.load_percent with
  | none => .error (.keyError .load_percent)
  | some lp =>
  match pyFloat? lp with
  | none => .error .valueError
  | some lpq =>
  match d Key.load_max_watts with
  | none => .error (.keyError .load_max_watts)
  | some mw =>
  match pyFloat? mw with
  | none => .error .valueError
  | some mwq =>
  match d Key.batt_percent with
  | none => .error (.keyError .batt_percent)
  | some bp =>
  match d Key.batt_time with
  | none => .error (.keyError .batt_time)
  | some bt =>
  match pyFloat? bt with
  | none => .error .valueError
  | some btq =>
  match d Key.xfer_reason with
  | none => .error (.keyError .xfer_reason)
  | some xr =>
  .ok ⟨ts, stat, lv, bv, lpq * mwq / 100, bp, btq,
       decide (stat ≠ onlineStr), xr⟩

/-- One of the two category tables (`status_v2`, `reason_v2`) together with
its backing sequence.  `rows` holds `(identifier, label)` pairs in insertion
order; `seq` is the last value handed out by the sequence (PostgreSQL
sequences start at 1, so `seq = 0` means NEXTVAL has never been called and
the next identifier is `seq + 1`; CURRVAL returns `seq`). -/
structure CatTab where
  rows : List (Nat × Str)
  seq : Nat
deriving DecidableEq

/-- A row of `upslog_v2` with the values `insert_observation` binds
(`linevoltage`, `battvoltage` and `batterysoc` are handed to the store as
the parsed strings; `load` and `timeleft` as Python floats). -/
structure ObsRow where
  timestamp : Str
  status_id : Nat
  linevoltage : Str
  battvoltage : Str
  load : ℚ
  batterysoc : Str
  timeleft : ℚ
  onbatt : Bool
deriving DecidableEq

/-- A row of `transfer_v2` (`reason_id` is a nullable column). -/
structure XferRow where
  timestamp : Str
  to_batt : Bool
  reason_id : Option Nat
deriving DecidableEq

/-- The durable objects owned by `UPSDatabase`: the two category tables with
their sequences, the observation log and the transfer log, in each case in
row-insertion order.  Timestamps are modelled as the strings the program
passes to the store (distinct readings carry distinct timestamp strings). -/
structure DBState where
  status_v2 : CatTab
  reason_v2 : CatTab
  upslog_v2 : List ObsRow
  transfer_v2 : List XferRow
deriving DecidableEq

/-- The store right after `create_table` on an empty database. -/
def emptyDB : DBState := ⟨⟨[], 0⟩, ⟨[], 0⟩, [], []⟩

/-- `UPSDatabase.update_transfer_select` (upslog.py line 142).  Note that the
query contains no `%s` placeholder. -/
def update_transfer_select : String :=
  "SELECT to_batt, reason_id FROM transfer_v2 WHERE timestamp = (SELECT MAX(timestamp) FROM transfer_v2)"

/-- Number of `%s` placeholders in a query string. -/
def placeholderCount : Str → Nat
  | '%' :: 's' :: cs => placeholderCount cs + 1
  | _ :: cs => placeholderCount cs
  | [] => 0

/-- psycopg2 binds a parameter sequence to a query by Python %-formatting:
`cursor.execute(q, vars)` succeeds at the binding step exactly when the
number of `%s` placeholders in `q` equals the number of parameters;
otherwise it raises (with parameters left over, the well-known
`TypeError: not all arguments converted during string formatting`). -/
def mergeParamsOk (query : String) (paramCount : Nat) : Bool :=
  placeholderCount query.data == paramCount

theorem update_transfer_select_has_no_placeholder :
    placeholderCount update_transfer_select.data = 0 := by decide

/-- `insert_observation`'s SELECT and INSERT (upslog.py lines 148-149) have
exactly as many placeholders as parameters supplied at their call sites, so
their parameter binding succeeds. -/
theorem insert_observation_placeholders_ok :
    mergeParamsOk "SELECT timestamp FROM upslog_v2 WHERE timestamp=%s" 1 = true
    ∧ mergeParamsOk "INSERT INTO upslog_v2 (timestamp, status_id, linevoltage, battvoltage, load, batterysoc, timeleft, onbatt) VALUES (%s, %s, %s, %s, %s, %s, %s, %s)" 8 = true := by
  constructor <;> decide

/-- The shared body of `UPSDatabase.get_status_id` and
`UPSDatabase.get_reason_id` (upslog.py lines 204-234), which are literally
identical up to the table touched: SELECT the identifier by exact label
match; if absent, INSERT the label (the identifier column defaults to
NEXTVAL of the table's sequence) and return CURRVAL of that sequence. -/
def lookupOrInsert (t : CatTab) (label : Str) : CatTab × Nat :=
  match t.rows.find? (fun r => decide (r.2 = label)) with
  | some r => (t, r.1)
  | none => (⟨t.rows ++ [(t.seq + 1, label)], t.seq + 1⟩, t.seq + 1)

/-- `UPSDatabase.get_status_id` (upslog.py lines 204-218). -/
def get_status_id (st : DBState) (status : Str) : DBState × Nat :=
  let p := lookupOrInsert st.status_v2 status
  ({st with status_v2 := p.1}, p.2)

/-- `UPSDatabase.get_reason_id` (upslog.py lines 220-234). -/
def get_reason_id (st : DBState) (reason : Str) : DBState × Nat :=
  let p := lookupOrInsert st.reason_v2 reason
  ({st with reason_v2 := p.1}, p.2)

/-- `UPSDatabase.insert_observation` (upslog.py lines 262-276): SELECT by
timestamp; if a row exists, do nothing; otherwise resolve the status label
and INSERT one observation row, then commit.  The returned `Bool` records
which branch ran — `true` for the insert branch (debug message "Inserted
observation."), `false` for the no-op branch (debug message "Already had
that observation."); the Python method itself returns `None` and signals
the outcome only through these messages. -/
def insert_observation (st : DBState) (timestamp status linevoltage battvoltage : Str)
    (load : ℚ) (batterysoc : Str) (timeleft : ℚ) (onbatt : Bool) :
    DBState × Bool :=
  match st.upslog_v2.find? (fun r => decide (r.timestamp = timestamp)) with
  | some _ => (st, false)
  | none =>
    let p := get_status_id st status
    ({p.1 with upslog_v2 := p.1.upslog_v2
        ++ [⟨timestamp, p.2, linevoltage, battvoltage, load, batterysoc,
             timeleft, onbatt⟩]}, true)

/-- Lexicographic comparison of timestamp strings (agrees with the store's
timestamp order on the fixed-width `YYYY-MM-DD hh:mm:ss +zzzz` format the
program writes). -/
def tsLt : Str → Str → Bool
  | [], [] => false
  | [], _ :: _ => true
  | _ :: _, [] => false
  | a :: as, b :: bs => if a < b then true else if a = b then tsLt as bs else false

/-- `SELECT ... WHERE timestamp = (SELECT MAX(timestamp) FROM transfer_v2)`
followed by `fetchone()`: the most recent transfer row, if any. -/
def latestTransfer (st : DBState) : Option XferRow :=
  st.transfer_v2.foldl
    (fun acc r =>
      match acc with
      | none => some r
      | some m => if tsLt m.timestamp r.timestamp then some r else some m)
    none

/-- `UPSDatabase.update_transfer` (upslog.py lines 236-261).  The first
statement executed is `cursor.execute(self.update_transfer_select,
(timestamp,))`: a query with no `%s` placeholder and a one-element
parameter tuple, so psycopg2's parameter binding raises before anything is
read or written — the guard below therefore always takes the error branch.
The remaining lines model the rest of the method body faithfully:
`fetchone` on the most recent transfer row, the `last_to_batt`/
`last_reason_id` defaults of `None`, `reason_id` assigned only when
`reason is not None` (so `none` here means the Python local is unbound, and
referencing it — in the short-circuited comparison or in the INSERT's
argument tuple — raises `UnboundLocalError`), the state comparison, and the
INSERT-and-commit.  On success the `Bool` is `true` when a row was inserted
(debug message "Inserting transfer.") and `false` when the method did
nothing (debug message "Already had that transfer."); the Python method
returns `None` and signals the outcome only through these messages. -/
def update_transfer (st : DBState) (timestamp : Str) (to_batt : Bool)
    (reason : Option Str) : DBState × Except PyErr Bool :=
  if !mergeParamsOk update_transfer_select 1 then
    (st, .error .typeErrorNotAllArgumentsConverted)
  else
    let result := latestTransfer st
    let last_to_batt : Option Bool := result.map (fun r => r.to_batt)
    let last_reason_id : Option Nat := result.bind (fun r => r.reason_id)
    let p : DBState × Option Nat :=
      match reason with
      | some r => let q := get_reason_id st r; (q.1, some q.2)
      | none => (st, none)
    if last_to_batt = some to_batt then
      match p.2 with
      | none => (p.1, .error .unboundLocalError)
      | some rid =>
        if last_reason_id = some rid then (p.1, .ok false)
        else ({p.1 with transfer_v2 := p.1.transfer_v2
                  ++ [⟨timestamp, to_batt, some rid⟩]}, .ok true)
    else
      match p.2 with
      | none => (p.1, .error .unboundLocalError)
      | some rid =>
        ({p.1 with transfer_v2 := p.1.transfer_v2
            ++ [⟨timestamp, to_batt, some rid⟩]}, .ok true)

/-- One iteration of the polling loop in `main` (upslog.py lines 291-308),
given the text returned by apcaccess: parse, evaluate the
`insert_observation` keyword arguments left to right (dict lookups raising
`KeyError`, `float()` raising `ValueError`), run `insert_observation`
(which commits its row), then evaluate the `update_transfer` arguments
(looking up `status['xfer_reason']` — only now, after the observation is
already committed) and run `update_transfer`.  An error aborts the cycle at
the point it occurs; the `DBState` component is the durable state at that
point. -/
def mainCycle (st : DBState) (text : Str) : DBState × Except PyErr Bool :=
  let d := parse text
  match d Key.date with
  | none => (st, .error (.keyError .date))
  | some ts =>
  match d Key.status with
  | none => (st, .error (.keyError .status))
  | some stat =>
  match d Key.line_voltage with
  | none => (st, .error (.keyError .line_voltage))
  | some lv =>
  match d Key.batt_volts with
  | none => (st, .error (.keyError .batt_volts))
  | some bv =>
  match d Key.load_percent with
  | none => (st, .error (.keyError .load_percent))
  | some lp =>
  match pyFloat? lp with
  | none => (st, .error .valueError)
  | some lpq =>
  match d Key.load_max_watts with
  | none => (st, .error (.keyError .load_max_watts))
  | some mw =>
  match pyFloat? mw with
  | none => (st, .error .valueError)
  | some mwq =>
  match d Key.batt_percent with
  | none => (st, .error (.keyError .batt_percent))
  | some bp =>
  match d Key.batt_time with
  | none => (st, .error (.keyError .batt_time))
  | some bt =>
  match pyFloat? bt with
  | none => (st, .error .valueError)
  | some btq =>
  let p := insert_observation st ts stat lv bv (lpq * mwq / 100) bp btq
      (decide (stat ≠ onlineStr))
  match d Key.xfer_reason with
  | none => (p.1, .error (.keyError .xfer_reason))
  | some xr =>
  update_transfer p.1 ts (decide (stat ≠ onlineStr)) (some xr)

/-- The names of the durable objects created by
`UPSDatabase.create_steps` (upslog.py lines 101-108), in creation order. -/
def create_objects : List String :=
  ["status_v2_seq", "reason_v2_seq", "status_v2", "reason_v2", "upslog_v2",
   "transfer_v2"]

/-- The object names that `UPSDatabase.drop_steps` (upslog.py lines 112-119)
drops, in execution order, exactly as spelled in the source — including the
misspelling `upslob_v2` in `"DROP TABLE IF EXISTS upslob_v2"` on line 114. -/
def drop_targets : List String :=
  ["transfer_v2", "upslob_v2", "reason_v2", "status_v2", "reason_v2_seq",
   "status_v2_seq"]

/-- `UPSDatabase.drop_table` (upslog.py lines 188-194) at the level of the
set of existing object names: each `DROP ... IF EXISTS n` removes `n` when
present and is a no-op otherwise.  (PostgreSQL dependency errors — dropping
a table another existing table references — are deliberately not modelled;
this only lets more drops succeed than would in reality.) -/
def drop_table (s : List String) : List String :=
  drop_targets.foldl (fun s' n => s'.filter (fun x => x ≠ n)) s

/-- `UPSDatabase.create_table` (upslog.py lines 196-202) at the level of the
set of existing object names: each `CREATE ... IF NOT EXISTS n` adds `n`
when absent. -/
def create_table (s : List String) : List String :=
  create_objects.foldl (fun s' n => if n ∈ s' then s' else s' ++ [n]) s

/-- `reset=True` sets both `drop` and `create`, and `__init__` runs
`drop_table` before `create_table` (upslog.py lines 165-173). -/
def resetDB (s : List String) : List String :=
  create_table (drop_table s)

/-- Scenario A's input lines exactly as the spec writes them, with a single
space between label and colon. -/
def scenarioA_literal : String :=
  "STATUS : ONLINE\nLINEV : 230.0 Volts\nLOADPCT : 10 Percent\nNOMPOWER : 500 Watts\nBCHARGE : 100 Percent\nTIMELEFT : 60 Minutes\nBATTV : 13.6 Volts\nDATE : 2024-01-01 00:00:00 +0000\nLASTXFER : Unknown"

/-- Scenario A's input with the labels padded to the fixed 9-column width
that the `re_set` regexes (and apcaccess output) use. -/
def scenarioA_fixed : String :=
  "STATUS   : ONLINE\nLINEV    : 230.0 Volts\nLOADPCT  : 10 Percent\nNOMPOWER : 500 Watts\nBCHARGE  : 100 Percent\nTIMELEFT : 60 Minutes\nBATTV    : 13.6 Volts\nDATE     : 2024-01-01 00:00:00 +0000\nLASTXFER : Unknown"

/-- Scenario B: as `scenarioA_fixed` but with status `ONBATT`. -/
def scenarioB_fixed : String :=
  "STATUS   : ONBATT\nLINEV    : 230.0 Volts\nLOADPCT  : 10 Percent\nNOMPOWER : 500 Watts\nBCHARGE  : 100 Percent\nTIMELEFT : 60 Minutes\nBATTV    : 13.6 Volts\nDATE     : 2024-01-01 00:00:00 +0000\nLASTXFER : Unknown"

/-- A status report with every required labeled line except `LASTXFER`. -/
def textMissingXfer : String :=
  "STATUS   : ONLINE\nLINEV    : 230.0 Volts\nLOADPCT  : 10 Percent\nNOMPOWER : 500 Watts\nBCHARGE  : 100 Percent\nTIMELEFT : 60 Minutes\nBATTV    : 13.6 Volts\nDATE     : 2024-01-01 00:00:00 +0000"

/-- A status report with every required labeled line except `DATE`. -/
def textMissingDate : String :=
  "STATUS   : ONLINE\nLINEV    : 230.0 Volts\nLOADPCT  : 10 Percent\nNOMPOWER : 500 Watts\nBCHARGE  : 100 Percent\nTIMELEFT : 60 Minutes\nBATTV    : 13.6 Volts\nLASTXFER : Unknown"

/-- Two lines matching the same pattern, first `ONLINE`, then `ONBATT`. -/
def twoStatusLines : String :=
  "STATUS   : ONLINE\nSTATUS   : ONBATT"

/-- Claim C2 (code evaluated at the failing input): the very first statement
of `update_transfer` executes `update_transfer_select` — which has no `%s`
placeholder — with the parameter tuple `(timestamp,)`, so psycopg2 raises
before the most recent transfer record is read or compared; every call
fails and nothing is ever written, contradicting the method's own
docstring. -/
theorem c2_update_transfer_always_raises :
    update_transfer emptyDB "2024-01-01 00:00:00 +0000".data true
        (some "Power failure.".data)
      = (emptyDB, .error .typeErrorNotAllArgumentsConverted) := by
  rfl

/-- Claim C4 (code evaluated at the failing input): an initial Transfer
Tracker call followed by a repeated call with the identical
`(to_battery, reason)` state leaves the transfer table empty — the pair of
calls adds zero rows rather than exactly one, because every call raises at
the placeholder-less SELECT. -/
theorem c4_transfer_history_never_grows :
    ((update_transfer emptyDB "t1".data true (some "Power failure.".data)).1.transfer_v2 = []
      ∧ (update_transfer emptyDB "t1".data true (some "Power failure.".data)).2
          = .error .typeErrorNotAllArgumentsConverted)
    ∧ ((update_transfer
          (update_transfer emptyDB "t1".data true (some "Power failure.".data)).1
          "t2".data true (some "Power failure.".data)).1.transfer_v2 = []
      ∧ (update_transfer
          (update_transfer emptyDB "t1".data true (some "Power failure.".data)).1
          "t2".data true (some "Power failure.".data)).2
          = .error .typeErrorNotAllArgumentsConverted) :=
  ⟨⟨rfl, rfl⟩, rfl, rfl⟩

/-- Claim C6 (code evaluated at the failing input): running the drop steps
on a store holding exactly the objects `create_table` creates removes
everything except the observation table `upslog_v2`, because line 114 of
the source drops the misspelled name `upslob_v2`; the claim that no object
remains after `dropSchema` is false. -/
theorem c6_drop_table_leaves_observation_table :
    drop_table create_objects = ["upslog_v2"]
    ∧ "upslob_v2" ∉ create_objects := by
  constructor <;> decide

/-- Claim C10, counterexample: calling `update_transfer` with `reason = None`
does fail with no transfer row inserted, but the error is psycopg2's
parameter-binding `TypeError` at the SELECT (the claim predicted an
`UnboundLocalError` at the comparison or at the INSERT). -/
theorem c10_counterexample :
    update_transfer emptyDB "2024-01-01 00:00:00 +0000".data false none
      = (emptyDB, .error .typeErrorNotAllArgumentsConverted)
    ∧ PyErr.typeErrorNotAllArgumentsConverted ≠ PyErr.unboundLocalError
    ∧ (update_transfer emptyDB "2024-01-01 00:00:00 +0000".data false none).1.transfer_v2
        = [] :=
  ⟨rfl, by decide, rfl⟩

/-- Claim C10 as amended: with `reason = None` the local `reason_id` is
indeed never assigned, but the call fails even earlier — the SELECT is
executed with a spurious parameter and no placeholder, raising the driver's
formatting error before the comparison is reached (masking the latent
unbound local) — and in every case the store is left unchanged, so the
no-reason case is never successfully recorded. -/
theorem c10_amended_no_reason_never_recorded (st : DBState) (t : Str) (tb : Bool) :
    update_transfer st t tb none = (st, .error .typeErrorNotAllArgumentsConverted) := by
  have hc : (!mergeParamsOk update_transfer_select 1) = true := by decide
  unfold update_transfer
  rw [if_pos hc]

/-- Claim C7, counterexample: on the spec's literal Scenario A text (labels
followed by a single space), no `re_set` pattern matches any line — the
patterns require the fixed 9-column label padding — so the parsed mapping
is empty and normalization fails at the first lookup instead of producing
a Reading with load 50.0. -/
theorem c7_counterexample :
    parse scenarioA_literal.data Key.status = none
    ∧ parse scenarioA_literal.data Key.date = none
    ∧ normalizeFields scenarioA_literal.data = .error (.keyError .date) := by
  refine ⟨by decide, by decide, ?_⟩
  rfl

/-- Claim C9, counterexample: when two lines match the `status` pattern, the
recorded value is the capture of the *last* matching line (`ONBATT`), not
the first (`ONLINE`): the dict assignment in `UPS.parse` overwrites the
earlier match. -/
theorem c9_counterexample :
    matchPat (pat .status) "STATUS   : ONLINE".data = some "ONLINE".data
    ∧ parse twoStatusLines.data Key.status = some "ONBATT".data
    ∧ "ONBATT".data ≠ "ONLINE".data := by
  refine ⟨by decide, by decide, by decide⟩

/-- Claim C3, counterexample: on input missing only the `LASTXFER` label,
the cycle does fail with a `KeyError` naming `xfer_reason`, but the
observation write is *not* skipped: `main` evaluates
`status['xfer_reason']` only after `insert_observation` has already
committed its row, so the cycle persists one observation before failing. -/
theorem c3_counterexample :
    parse textMissingXfer.data Key.xfer_reason = none
    ∧ (mainCycle emptyDB textMissingXfer.data).2 = .error (.keyError .xfer_reason)
    ∧ (mainCycle emptyDB textMissingXfer.data).1.upslog_v2.length = 1 := by
  refine ⟨by decide, ?_, ?_⟩ <;> rfl

theorem find?_append_of_some {α : Type} (p : α → Bool) (l1 l2 : List α)
    (a : α) (h : l1.find? p = some a) : (l1 ++ l2).find? p = some a := by
  induction l1 with
  | nil => exact absurd h (by simp)
  | cons b bs ih =>
    by_cases hpb : p b = true
    · rw [List.find?_cons_of_pos _ hpb] at h
      rw [List.cons_append, List.find?_cons_of_pos _ hpb]
      exact h
    · rw [List.find?_cons_of_neg _ hpb] at h
      rw [List.cons_append, List.find?_cons_of_neg _ hpb]
      exact ih h

theorem find?_append_of_none {α : Type} (p : α → Bool) (l1 l2 : List α)
    (h : l1.find? p = none) : (l1 ++ l2).find? p = l2.find? p := by
  induction l1 with
  | nil => rfl
  | cons a as ih =>
    by_cases hpa : p a = true
    · rw [List.find?_cons_of_pos _ hpa] at h
      exact absurd h (by simp)
    · rw [List.find?_cons_of_neg _ hpa] at h
      rw [List.cons_append, List.find?_cons_of_neg _ hpa]
      exact ih h

theorem get_status_id_keeps_upslog (st : DBState) (s : Str) :
    (get_status_id st s).1.upslog_v2 = st.upslog_v2 := by
  unfold get_status_id
  rfl

theorem get_status_id_table (st : DBState) (s : Str) :
    (get_status_id st s).1.status_v2 = (lookupOrInsert st.status_v2 s).1 := by
  unfold get_status_id
  rfl

theorem get_reason_id_table (st : DBState) (s : Str) :
    (get_reason_id st s).1.reason_v2 = (lookupOrInsert st.reason_v2 s).1 := by
  unfold get_reason_id
  rfl

/-- Well-formedness of a category table, exactly the conditions PostgreSQL
enforces on `status_v2`/`reason_v2`: identifiers are unique (PRIMARY KEY),
labels are unique (UNIQUE), and no stored identifier exceeds the sequence's
current value (identifiers come from NEXTVAL). -/
def WFcat (t : CatTab) : Prop :=
  (t.rows.map Prod.fst).Nodup ∧ (t.rows.map Prod.snd).Nodup
    ∧ ∀ r ∈ t.rows, r.1 ≤ t.seq

instance (t : CatTab) : Decidable (WFcat t) := by
  unfold WFcat
  infer_instance

/-- Resolving the same label twice returns the same identifier: a hit
returns the stored identifier; after a miss the inserted row is found. -/
theorem lookupOrInsert_same (t : CatTab) (l : Str) :
    (lookupOrInsert (lookupOrInsert t l).1 l).2 = (lookupOrInsert t l).2 := by
  unfold lookupOrInsert
  cases h : t.rows.find? (fun r => decide (r.2 = l)) with
  | some r => simp [h]
  | none =>
    simp only [h]
    rw [find?_append_of_none _ _ _ h]
    simp

/-- Resolving two distinct labels returns two distinct identifiers, given
the store's uniqueness and sequence invariants. -/
theorem lookupOrInsert_ne (t : CatTab) (hw : WFcat t) (l1 l2 : Str)
    (hne : l1 ≠ l2) :
    (lookupOrInsert (lookupOrInsert t l1).1 l2).2 ≠ (lookupOrInsert t l1).2 := by
  obtain ⟨hids, _, hbound⟩ := hw
  unfold lookupOrInsert
  cases h1 : t.rows.find? (fun r => decide (r.2 = l1)) with
  | some r1 =>
    have hr1mem : r1 ∈ t.rows := List.mem_of_find?_eq_some h1
    have hr1lab : r1.2 = l1 := by
      have := List.find?_some h1
      simpa using this
    simp only [h1]
    cases h2 : t.rows.find? (fun r => decide (r.2 = l2)) with
    | some r2 =>
      have hr2mem : r2 ∈ t.rows := List.mem_of_find?_eq_some h2
      have hr2lab : r2.2 = l2 := by
        have := List.find?_some h2
        simpa using this
      simp only [h2]
      intro hid
      have h12 : r2 = r1 := List.inj_on_of_nodup_map hids hr2mem hr1mem hid
      have hll : l2 = l1 := by rw [← hr2lab, ← hr1lab, h12]
      exact hne hll.symm
    | none =>
      simp only [h2]
      have : r1.1 ≤ t.seq := hbound r1 hr1mem
      omega
  | none =>
    simp only [h1]
    cases h2 : t.rows.find? (fun r => decide (r.2 = l2)) with
    | some r2 =>
      have hr2mem : r2 ∈ t.rows := List.mem_of_find?_eq_some h2
      have happ : (t.rows ++ [(t.seq + 1, l1)]).find? (fun r => decide (r.2 = l2))
          = some r2 := find?_append_of_some _ _ _ _ h2
      simp only [happ]
      have : r2.1 ≤ t.seq := hbound r2 hr2mem
      omega
    | none =>
      have hsingle : ([((t.seq + 1 : Nat), l1)]).find? (fun r => decide (r.2 = l2))
          = none := by
        simp [hne]
      have happ : (t.rows ++ [(t.seq + 1, l1)]).find? (fun r => decide (r.2 = l2))
          = none := by
        rw [find?_append_of_none _ _ _ h2]
        exact hsingle
      simp only [happ]
      omega

/-- Claim C5: resolving the same label twice returns the same identifier
both times (a hit returns the stored identifier, a miss inserts and returns
the fresh identifier, which the second call then finds), and resolving two
distinct labels returns two distinct identifiers — for both category
resolvers, on any store satisfying the category tables' uniqueness and
sequence invariants. -/
theorem c5_category_resolver (st : DBState)
    (hs : WFcat st.status_v2) (hr : WFcat st.reason_v2) :
    (∀ l, (get_status_id (get_status_id st l).1 l).2 = (get_status_id st l).2
      ∧ (get_reason_id (get_reason_id st l).1 l).2 = (get_reason_id st l).2)
    ∧ ∀ l1 l2, l1 ≠ l2 →
      (get_status_id (get_status_id st l1).1 l2).2 ≠ (get_status_id st l1).2
      ∧ (get_reason_id (get_reason_id st l1).1 l2).2 ≠ (get_reason_id st l1).2 := by
  constructor
  · intro l
    exact ⟨lookupOrInsert_same st.status_v2 l, lookupOrInsert_same st.reason_v2 l⟩
  · intro l1 l2 hne
    exact ⟨lookupOrInsert_ne st.status_v2 hs l1 l2 hne,
           lookupOrInsert_ne st.reason_v2 hr l1 l2 hne⟩

theorem c5_witness :
    WFcat emptyDB.status_v2
    ∧ (get_status_id (get_status_id emptyDB "ONLINE".data).1 "ONLINE".data).2
        = (get_status_id emptyDB "ONLINE".data).2
    ∧ (get_reason_id (get_reason_id emptyDB "Unknown".data).1
          "Power failure.".data).2
        ≠ (get_reason_id emptyDB "Unknown".data).2 :=
  ⟨by decide,
   ((c5_category_resolver emptyDB (by decide) (by decide)).1 "ONLINE".data).1,
   ((c5_category_resolver emptyDB (by decide) (by decide)).2 "Unknown".data
       "Power failure.".data (by decide)).2⟩

theorem insert_observation_found (st : DBState) (t s lv bv : Str) (ld : ℚ)
    (soc : Str) (tl : ℚ) (ob : Bool) (r : ObsRow)
    (h : st.upslog_v2.find? (fun r' => decide (r'.timestamp = t)) = some r) :
    insert_observation st t s lv bv ld soc tl ob = (st, false) := by
  unfold insert_observation
  rw [h]

theorem insert_observation_notfound (st : DBState) (t s lv bv : Str) (ld : ℚ)
    (soc : Str) (tl : ℚ) (ob : Bool)
    (h : st.upslog_v2.find? (fun r' => decide (r'.timestamp = t)) = none) :
    insert_observation st t s lv bv ld soc tl ob
      = ({(get_status_id st s).1 with
            upslog_v2 := (get_status_id st s).1.upslog_v2
              ++ [⟨t, (get_status_id st s).2, lv, bv, ld, soc, tl, ob⟩]},
         true) := by
  unfold insert_observation
  rw [h]

/-- Claim C1: if the store has no observation for timestamp `t`, a first
`insert_observation` call inserts (and reports the insert branch), and a
second call with the same timestamp — even with entirely different field
values — performs no write, leaves the store unchanged with exactly one row
for `t` carrying the first call's values, and reports the no-op branch. -/
theorem c1_observation_write_idempotent (st : DBState)
    (t sA lvA bvA : Str) (ldA : ℚ) (socA : Str) (tlA : ℚ) (obA : Bool)
    (sB lvB bvB : Str) (ldB : ℚ) (socB : Str) (tlB : ℚ) (obB : Bool)
    (h : ∀ r ∈ st.upslog_v2, r.timestamp ≠ t) :
    (insert_observation st t sA lvA bvA ldA socA tlA obA).2 = true
    ∧ (insert_observation (insert_observation st t sA lvA bvA ldA socA tlA obA).1
        t sB lvB bvB ldB socB tlB obB).2 = false
    ∧ (insert_observation (insert_observation st t sA lvA bvA ldA socA tlA obA).1
        t sB lvB bvB ldB socB tlB obB).1
      = (insert_observation st t sA lvA bvA ldA socA tlA obA).1
    ∧ (insert_observation st t sA lvA bvA ldA socA tlA obA).1.upslog_v2.filter
        (fun r => decide (r.timestamp = t))
      = [⟨t, (get_status_id st sA).2, lvA, bvA, ldA, socA, tlA, obA⟩] := by
  have hf : st.upslog_v2.find? (fun r => decide (r.timestamp = t)) = none :=
    List.find?_eq_none.mpr (fun x hx => by simp [h x hx])
  have e1 : insert_observation st t sA lvA bvA ldA socA tlA obA
      = ({(get_status_id st sA).1 with
            upslog_v2 := (get_status_id st sA).1.upslog_v2
              ++ [⟨t, (get_status_id st sA).2, lvA, bvA, ldA, socA, tlA, obA⟩]},
         true) := insert_observation_notfound st t sA lvA bvA ldA socA tlA obA hf
  have hup : (insert_observation st t sA lvA bvA ldA socA tlA obA).1.upslog_v2
      = st.upslog_v2
        ++ [⟨t, (get_status_id st sA).2, lvA, bvA, ldA, socA, tlA, obA⟩] := by
    rw [e1, get_status_id_keeps_upslog]
  have hf2 : (insert_observation st t sA lvA bvA ldA socA tlA obA).1.upslog_v2.find?
      (fun r => decide (r.timestamp = t))
      = some ⟨t, (get_status_id st sA).2, lvA, bvA, ldA, socA, tlA, obA⟩ := by
    rw [hup, find?_append_of_none _ _ _ hf]
    simp
  have e2 : insert_observation (insert_observation st t sA lvA bvA ldA socA tlA obA).1
      t sB lvB bvB ldB socB tlB obB
      = ((insert_observation st t sA lvA bvA ldA socA tlA obA).1, false) :=
    insert_observation_found _ t sB lvB bvB ldB socB tlB obB _ hf2
  refine ⟨by rw [e1], by rw [e2], by rw [e2], ?_⟩
  rw [hup, List.filter_append]
  have hnil : st.upslog_v2.filter (fun r => decide (r.timestamp = t)) = [] := by
    rw [List.filter_eq_nil_iff]
    intro a ha
    simp [h a ha]
  rw [hnil]
  simp

theorem c1_witness :
    (∀ r ∈ emptyDB.upslog_v2, r.timestamp ≠ "2024-01-01 00:00:00 +0000".data)
    ∧ (insert_observation emptyDB "2024-01-01 00:00:00 +0000".data "ONLINE".data
        "230.0".data "13.6".data 50 "100".data 60 false).2 = true
    ∧ (insert_observation
        (insert_observation emptyDB "2024-01-01 00:00:00 +0000".data "ONLINE".data
          "230.0".data "13.6".data 50 "100".data 60 false).1
        "2024-01-01 00:00:00 +0000".data "ONLINE".data
        "231.0".data "13.6".data 50 "100".data 60 false).2 = false
    ∧ (insert_observation
        (insert_observation emptyDB "2024-01-01 00:00:00 +0000".data "ONLINE".data
          "230.0".data "13.6".data 50 "100".data 60 false).1
        "2024-01-01 00:00:00 +0000".data "ONLINE".data
        "231.0".data "13.6".data 50 "100".data 60 false).1
      = (insert_observation emptyDB "2024-01-01 00:00:00 +0000".data "ONLINE".data
          "230.0".data "13.6".data 50 "100".data 60 false).1
    ∧ (insert_observation emptyDB "2024-01-01 00:00:00 +0000".data "ONLINE".data
        "230.0".data "13.6".data 50 "100".data 60 false).1.upslog_v2.filter
        (fun r => decide (r.timestamp = "2024-01-01 00:00:00 +0000".data))
      = [⟨"2024-01-01 00:00:00 +0000".data,
          (get_status_id emptyDB "ONLINE".data).2,
          "230.0".data, "13.6".data, 50, "100".data, 60, false⟩] :=
  ⟨by simp [emptyDB],
   c1_observation_write_idempotent emptyDB
     "2024-01-01 00:00:00 +0000".data "ONLINE".data "230.0".data "13.6".data 50
     "100".data 60 false "ONLINE".data "231.0".data "13.6".data 50 "100".data 60
     false (by simp [emptyDB])⟩

theorem normalizeFields_eval (text : Str) (ts stat lv bv lp mw bp bt xr : Str)
    (lpq mwq btq : ℚ)
    (hd : parse text Key.date = some ts)
    (hs : parse text Key.status = some stat)
    (hlv : parse text Key.line_voltage = some lv)
    (hbv : parse text Key.batt_volts = some bv)
    (hlp : parse text Key.load_percent = some lp)
    (hlpf : pyFloat? lp = some lpq)
    (hmw : parse text Key.load_max_watts = some mw)
    (hmwf : pyFloat? mw = some mwq)
    (hbp : parse text Key.batt_percent = some bp)
    (hbt : parse text Key.batt_time = some bt)
    (hbtf : pyFloat? bt = some btq)
    (hxr : parse text Key.xfer_reason = some xr) :
    normalizeFields text
      = .ok ⟨ts, stat, lv, bv, lpq * mwq / 100, bp, btq,
             decide (stat ≠ onlineStr), xr⟩ := by
  unfold normalizeFields
  simp only [hd, hs, hlv, hbv, hlp, hlpf, hmw, hmwf, hbp, hbt, hbtf, hxr]

/-- Claim C8: whenever parsing the raw text finds every required labeled
line (and the three fields `main` passes through `float()` carry numeric
values), normalization succeeds and yields a Reading populated with exactly
the parsed field values, the derived load, and the on-battery flag equal to
`status != 'ONLINE'` (case-sensitive comparison with that exact literal). -/
theorem c8_parse_normalize (text : Str) (ts stat lv bv lp mw bp bt xr : Str)
    (lpq mwq btq : ℚ)
    (hd : parse text Key.date = some ts)
    (hs : parse text Key.status = some stat)
    (hlv : parse text Key.line_voltage = some lv)
    (hbv : parse text Key.batt_volts = some bv)
    (hlp : parse text Key.load_percent = some lp)
    (hlpf : pyFloat? lp = some lpq)
    (hmw : parse text Key.load_max_watts = some mw)
    (hmwf : pyFloat? mw = some mwq)
    (hbp : parse text Key.batt_percent = some bp)
    (hbt : parse text Key.batt_time = some bt)
    (hbtf : pyFloat? bt = some btq)
    (hxr : parse text Key.xfer_reason = some xr) :
    normalizeFields text
      = .ok ⟨ts, stat, lv, bv, lpq * mwq / 100, bp, btq,
             decide (stat ≠ onlineStr), xr⟩ :=
  normalizeFields_eval text ts stat lv bv lp mw bp bt xr lpq mwq btq
    hd hs hlv hbv hlp hlpf hmw hmwf hbp hbt hbtf hxr

theorem c8_witness :
    parse scenarioB_fixed.data Key.status = some "ONBATT".data
    ∧ normalizeFields scenarioB_fixed.data
      = .ok ⟨"2024-01-01 00:00:00 +0000".data, "ONBATT".data, "230.0".data,
             "13.6".data, (10 : ℚ) * 500 / 100, "100".data, 60,
             decide ("ONBATT".data ≠ onlineStr), "Unknown".data⟩ :=
  ⟨by decide,
   c8_parse_normalize scenarioB_fixed.data
     "2024-01-01 00:00:00 +0000".data "ONBATT".data "230.0".data "13.6".data
     "10".data "500".data "100".data "60".data "Unknown".data 10 500 60
     (by decide) (by decide) (by decide) (by decide) (by decide) rfl
     (by decide) rfl (by decide) (by decide) rfl (by decide)⟩

/-- Claim C7 as amended: Scenario A's lines with the fixed 9-column label
padding the `re_set` regexes require (as apcaccess emits them) parse and
normalize to a Reading with load `(10 / 100) × 500 = 50.0` watts and
`on_battery = false`. -/
theorem c7_amended_padded_labels :
    normalizeFields scenarioA_fixed.data
      = .ok ⟨"2024-01-01 00:00:00 +0000".data, "ONLINE".data, "230.0".data,
             "13.6".data, 50, "100".data, 60, false, "Unknown".data⟩ := by
  have h := normalizeFields_eval scenarioA_fixed.data
    "2024-01-01 00:00:00 +0000".data "ONLINE".data "230.0".data "13.6".data
    "10".data "500".data "100".data "60".data "Unknown".data 10 500 60
    (by decide) (by decide) (by decide) (by decide) (by decide) rfl
    (by decide) rfl (by decide) (by decide) rfl (by decide)
  have e1 : (10 : ℚ) * 500 / 100 = 50 := by norm_num
  have e2 : decide ("ONLINE".data ≠ onlineStr) = false := by decide
  rw [h, e1, e2]

theorem foldKeys_apply (line : Str) (KS : List Key) (hnd : KS.Nodup)
    (d : Key → Option Str) (k : Key) :
    (KS.foldl
      (fun d' k' =>
        match matchPat (pat k') line with
        | some v => update d' k' (strip v)
        | none => d') d) k
    = if k ∈ KS then
        (match matchPat (pat k) line with
         | some v => some (strip v)
         | none => d k)
      else d k := by
  induction KS generalizing d with
  | nil => simp
  | cons k0 KS ih =>
    rw [List.foldl_cons]
    have hk0 : k0 ∉ KS := (List.nodup_cons.mp hnd).1
    have hnd' : KS.Nodup := (List.nodup_cons.mp hnd).2
    rw [ih hnd']
    by_cases hkk : k = k0
    · subst hkk
      rw [if_neg hk0, if_pos (List.mem_cons_self k KS)]
      cases hm : matchPat (pat k) line with
      | some v => simp [update]
      | none => rfl
    · have hstep : (match matchPat (pat k0) line with
          | some v => update d k0 (strip v)
          | none => d) k = d k := by
        cases matchPat (pat k0) line with
        | some v => simp [update, hkk]
        | none => rfl
      by_cases hk : k ∈ KS
      · rw [if_pos hk, if_pos (List.mem_cons_of_mem k0 hk)]
        cases hm : matchPat (pat k) line with
        | some v => rfl
        | none => exact hstep
      · rw [if_neg hk, if_neg (by simp [hkk, hk])]
        exact hstep

theorem processLine_apply (d : Key → Option Str) (line : Str) (k : Key) :
    processLine d line k
    = match matchPat (pat k) line with
      | some v => some (strip v)
      | none => d k := by
  have hmem : k ∈ keyList := by cases k <;> decide
  have hnd : keyList.Nodup := by decide
  unfold processLine
  rw [foldKeys_apply line keyList hnd d k, if_pos hmem]

theorem parseLines_append_one (ls : List Str) (l : Str) (k : Key) :
    parseLines (ls ++ [l]) k
    = match matchPat (pat k) l with
      | some v => some (strip v)
      | none => parseLines ls k := by
  unfold parseLines
  rw [List.foldl_append, List.foldl_cons, List.foldl_nil]
  exact processLine_apply _ l k

theorem parseLines_of_no_match (ls : List Str) (k : Key)
    (h : ∀ l ∈ ls, matchPat (pat k) l = none) : parseLines ls k = none := by
  suffices hgen : ∀ d : Key → Option Str, d k = none →
      (ls.foldl processLine d) k = none by
    exact hgen (fun _ => none) rfl
  induction ls with
  | nil => intro d hd; exact hd
  | cons l ls ih =>
    intro d hd
    rw [List.foldl_cons]
    refine ih (fun l' hl' => h l' (List.mem_cons_of_mem l hl')) _ ?_
    rw [processLine_apply, h l (List.mem_cons_self l ls), hd]

/-- Claim C9 as amended: `UPS.parse` is line-oriented and order-independent
across keys, each captured value is stripped of surrounding whitespace,
unmatched lines are ignored, and an unmatched key is absent from the output
— but when several lines match the same key, the *last* match is recorded
(each later match overwrites the dict entry), not the first. -/
theorem c9_amended_parse_records_last_match :
    (∀ ls l k, parseLines (ls ++ [l]) k
      = match matchPat (pat k) l with
        | some v => some (strip v)
        | none => parseLines ls k)
    ∧ (∀ ls l, (∀ k, matchPat (pat k) l = none) →
        ∀ k, parseLines (ls ++ [l]) k = parseLines ls k)
    ∧ ∀ s k, (∀ l ∈ splitNl s, matchPat (pat k) l = none) → parse s k = none := by
  refine ⟨parseLines_append_one, ?_, ?_⟩
  · intro ls l hnone k
    rw [parseLines_append_one, hnone k]
  · intro s k h
    exact parseLines_of_no_match (splitNl s) k h

theorem c9_witness :
    parseLines (["STATUS   : ONLINE".data] ++ ["STATUS   : ONBATT".data])
        Key.status = some "ONBATT".data
    ∧ parseLines (["STATUS   : ONLINE".data] ++ ["HOSTNAME : cana".data])
        Key.status = parseLines ["STATUS   : ONLINE".data] Key.status
    ∧ parse "HOSTNAME : cana".data Key.status = none := by
  refine ⟨?_, ?_, ?_⟩
  · rw [c9_amended_parse_records_last_match.1]
    decide
  · exact c9_amended_parse_records_last_match.2.1
      ["STATUS   : ONLINE".data] "HOSTNAME : cana".data
      (by intro k; cases k <;> decide) Key.status
  · exact c9_amended_parse_records_last_match.2.2 "HOSTNAME : cana".data
      Key.status (by decide)

/-- The required keys of the spec's Field Normalizer: the nine fields `main`
reads from the parsed dict. -/
def requiredKeys : List Key :=
  [.date, .status, .line_voltage, .load_percent, .batt_percent, .batt_time,
   .batt_volts, .load_max_watts, .xfer_reason]

/-- The field at `k`, when present, is a numeral `float()` accepts (the
three keys `main` converts are `load_percent`, `load_max_watts`,
`batt_time`). -/
def floatFieldOk (text : Str) (k : Key) : Bool :=
  match parse text k with
  | some v => (pyFloat? v).isSome
  | none => true

/-- Claim C3 as amended: on raw text from which any required label is
absent (and whose present `float()`-converted fields are numeric), the
cycle fails with a `KeyError` naming a missing required key — the first one
in `main`'s evaluation order — and the store is untouched whenever the
missing key is one the observation write needs; but when only the
last-transfer reason is missing the failure strikes after
`insert_observation` has already committed, so the observation write is not
skipped (see the counterexample). -/
theorem c3_amended_first_missing_key (text : Str) (st : DBState)
    (hn1 : floatFieldOk text Key.load_percent = true)
    (hn2 : floatFieldOk text Key.load_max_watts = true)
    (hn3 : floatFieldOk text Key.batt_time = true)
    (hmiss : requiredKeys.any (fun k => (parse text k).isNone) = true) :
    ∃ k, k ∈ requiredKeys ∧ parse text k = none
      ∧ (mainCycle st text).2 = .error (.keyError k)
      ∧ (k ≠ Key.xfer_reason → (mainCycle st text).1 = st) := by
  cases hd : parse text Key.date with
  | none =>
    exact ⟨.date, by decide, hd, by simp [mainCycle, hd], fun _ => by
      simp [mainCycle, hd]⟩
  | some ts =>
  cases hs : parse text Key.status with
  | none =>
    exact ⟨.status, by decide, hs, by simp [mainCycle, hd, hs], fun _ => by
      simp [mainCycle, hd, hs]⟩
  | some stat =>
  cases hlv : parse text Key.line_voltage with
  | none =>
    exact ⟨.line_voltage, by decide, hlv, by simp [mainCycle, hd, hs, hlv],
      fun _ => by simp [mainCycle, hd, hs, hlv]⟩
  | some lv =>
  cases hbv : parse text Key.batt_volts with
  | none =>
    exact ⟨.batt_volts, by decide, hbv,
      by simp [mainCycle, hd, hs, hlv, hbv],
      fun _ => by simp [mainCycle, hd, hs, hlv, hbv]⟩
  | some bv =>
  cases hlp : parse text Key.load_percent with
  | none =>
    exact ⟨.load_percent, by decide, hlp,
      by simp [mainCycle, hd, hs, hlv, hbv, hlp],
      fun _ => by simp [mainCycle, hd, hs, hlv, hbv, hlp]⟩
  | some lp =>
  have hn1' : (pyFloat? lp).isSome = true := by
    unfold floatFieldOk at hn1
    rw [hlp] at hn1
    exact hn1
  obtain ⟨lpq, hlpq⟩ := Option.isSome_iff_exists.mp hn1'
  cases hmw : parse text Key.load_max_watts with
  | none =>
    exact ⟨.load_max_watts, by decide, hmw,
      by simp [mainCycle, hd, hs, hlv, hbv, hlp, hlpq, hmw],
      fun _ => by simp [mainCycle, hd, hs, hlv, hbv, hlp, hlpq, hmw]⟩
  | some mw =>
  have hn2' : (pyFloat? mw).isSome = true := by
    unfold floatFieldOk at hn2
    rw [hmw] at hn2
    exact hn2
  obtain ⟨mwq, hmwq⟩ := Option.isSome_iff_exists.mp hn2'
  cases hbp : parse text Key.batt_percent with
  | none =>
    exact ⟨.batt_percent, by decide, hbp,
      by simp [mainCycle, hd, hs, hlv, hbv, hlp, hlpq, hmw, hmwq, hbp],
      fun _ => by
        simp [mainCycle, hd, hs, hlv, hbv, hlp, hlpq, hmw, hmwq, hbp]⟩
  | some bp =>
  cases hbt : parse text Key.batt_time with
  | none =>
    exact ⟨.batt_time, by decide, hbt,
      by simp [mainCycle, hd, hs, hlv, hbv, hlp, hlpq, hmw, hmwq, hbp, hbt],
      fun _ => by
        simp [mainCycle, hd, hs, hlv, hbv, hlp, hlpq, hmw, hmwq, hbp, hbt]⟩
  | some bt =>
  have hn3' : (pyFloat? bt).isSome = true := by
    unfold floatFieldOk at hn3
    rw [hbt] at hn3
    exact hn3
  obtain ⟨btq, hbtq⟩ := Option.isSome_iff_exists.mp hn3'
  cases hxr : parse text Key.xfer_reason with
  | none =>
    refine ⟨.xfer_reason, by decide, hxr, ?_, fun hk => absurd rfl hk⟩
    simp [mainCycle, hd, hs, hlv, hbv, hlp, hlpq, hmw, hmwq, hbp, hbt, hbtq,
      hxr]
  | some xr =>
  exfalso
  simp only [requiredKeys, List.any_cons, List.any_nil, Bool.or_eq_true,
    Bool.or_eq_false_iff] at hmiss
  rcases hmiss with h|h|h|h|h|h|h|h|h|h
  · rw [hd] at h; exact absurd h (by simp)
  · rw [hs] at h; exact absurd h (by simp)
  · rw [hlv] at h; exact absurd h (by simp)
  · rw [hlp] at h; exact absurd h (by simp)
  · rw [hbp] at h; exact absurd h (by simp)
  · rw [hbt] at h; exact absurd h (by simp)
  · rw [hbv] at h; exact absurd h (by simp)
  · rw [hmw] at h; exact absurd h (by simp)
  · rw [hxr] at h; exact absurd h (by simp)
  · exact absurd h (by simp)

theorem c3_witness :
    (floatFieldOk textMissingDate.data Key.load_percent = true
      ∧ floatFieldOk textMissingDate.data Key.load_max_watts = true
      ∧ floatFieldOk textMissingDate.data Key.batt_time = true
      ∧ requiredKeys.any (fun k => (parse textMissingDate.data k).isNone)
          = true)
    ∧ ∃ k, k ∈ requiredKeys ∧ parse textMissingDate.data k = none
      ∧ (mainCycle emptyDB textMissingDate.data).2 = .error (.keyError k)
      ∧ (k ≠ Key.xfer_reason
          → (mainCycle emptyDB textMissingDate.data).1 = emptyDB) :=
  ⟨⟨by decide, by decide, by decide, by decide⟩,
   c3_amended_first_missing_key textMissingDate.data emptyDB
     (by decide) (by decide) (by decide) (by decide)⟩
